import Mathlib

/-!
Shallow embedding of the PlanetariumWarper application core,
`src/PlanetariumWarper/PlanetariumWarper/Program.cpp`.

The file is a straight-line OpenGL render skeleton: a `Program` class whose
only member state (besides an externally defined shader wrapper) is a boolean
exit flag `m_exit`, plus lifecycle methods `Initialize`, `Load`, `Update`,
`Draw`, `ReadyToExit`, `Exit`, `Unload` and a free debug-callback function
`ETB_GL_ERROR_CALLBACK`.

Modelling choices:
- In-place mutation of the `Program` object and of the caller-supplied
  `ProgramConfiguration` record is modelled by explicit state passing:
  a method becomes a function from the receiver state to the new state,
  paired with the list of graphics commands it issues.
- Calls into the OpenGL driver and into the external shader wrapper are
  recorded as a trace of `GLCmd` events, in source order.
- All floating point literals appearing in the source (`-1.0f`, `0.0f`,
  `1.0f`) are exactly representable, so colors and vertex coordinates are
  embedded as `Int`.
-/

namespace PlanetariumWarper

/-- Source: `#define WINDOW_WIDTH 512` (Program.cpp line 10). -/
def WINDOW_WIDTH : Nat := 512

/-- Source: `#define WINDOW_HEIGHT 512` (Program.cpp line 11). -/
def WINDOW_HEIGHT : Nat := 512

/-- The input keys queried by the program. `Program::Update` queries only
`InputKey::ESCAPE`; the `InputKey` enumeration itself is external to
Program.cpp, so only the constant actually used is modelled. -/
inductive InputKey
  | ESCAPE
deriving DecidableEq

/-- The externally owned input snapshot: `Program::Update` consumes it only
through the query `IsKeyPressed`. -/
structure InputState where
  IsKeyPressed : InputKey → Bool

/-- The caller-supplied configuration record written by `Program::Initialize`
via its setters `SetTitle`, `SetWindowWidth`, `SetWindowHeight`,
`SetGLMajorVersion`, `SetGLMinorVersion`. -/
structure ProgramConfiguration where
  title : String
  windowWidth : Nat
  windowHeight : Nat
  glMajorVersion : Nat
  glMinorVersion : Nat
deriving DecidableEq

/-- Draw-primitive modes used by the source (only `GL_TRIANGLE_STRIP`). -/
inductive GLPrimitiveMode
  | GL_TRIANGLE_STRIP
deriving DecidableEq

/-- Vertex component data types used by the source (only `GL_FLOAT`). -/
inductive GLDataType
  | GL_FLOAT
deriving DecidableEq

/-- One graphics call issued by Program.cpp, recorded with its arguments.
`shaderEnable` and `shaderDisable` stand for `m_shader.Enable()` and
`m_shader.Disable()` on the external shader wrapper; `clear` stands for
`glClear(GL_COLOR_BUFFER_BIT)`, the only clear in the source. -/
inductive GLCmd
  | viewport (x y w h : Int)
  | clearColor (r g b a : Int)
  | colorMask (r g b a : Bool)
  | clear
  | shaderEnable
  | vertexAttribPointer (index size : Nat) (ty : GLDataType)
      (normalized : Bool) (stride : Nat) (data : List Int)
  | enableVertexAttribArray (index : Nat)
  | drawArrays (mode : GLPrimitiveMode) (first count : Nat)
  | shaderDisable
  | useProgram (handle : Nat)
deriving DecidableEq

/-- The `Program` entity. Its only own data member is `m_exit : bool`; the
shader wrapper member `m_shader` is an externally defined collaborator with
no state read by any claim, so it is not part of the modelled state. -/
structure Program where
  m_exit : Bool
deriving DecidableEq

/-- `Program::Program() : m_exit(false)` (Program.cpp lines 25-28). -/
def Program.construct : Program :=
  { m_exit := false }

/-- `Program::Initialize(ProgramConfiguration &config)` (lines 30-37):
writes the five fixed constants into the caller-supplied record through its
setters. The C++ in-place mutation of `config` is modelled by returning the
updated record. The receiver `Program` object is not touched. -/
def Program.Initialize (config : ProgramConfiguration) : ProgramConfiguration :=
  { config with
      title := "Planetarium Warper"
      windowWidth := WINDOW_WIDTH
      windowHeight := WINDOW_HEIGHT
      glMajorVersion := 2
      glMinorVersion := 0 }

/-- `Program::Load()` (lines 40-55): one-time GPU setup (glew init, debug
output, shader compilation and linking). It writes no `Program` data member
(`m_exit` in the model), so on the modelled state it is the identity. -/
def Program.Load (p : Program) : Program :=
  p

/-- `Program::Unload()` (lines 99-102): `glUseProgram(0)`. -/
def Program.Unload (p : Program) : Program × List GLCmd :=
  (p, [GLCmd.useProgram 0])

/-- `Program::Exit()` (lines 93-97): sets `m_exit = true`, then calls
`Unload()`. -/
def Program.Exit (p : Program) : Program × List GLCmd :=
  Program.Unload { p with m_exit := true }

/-- `Program::Update(const InputState &inputState)` (lines 57-63): if the
escape key is reported pressed, calls `Exit()`; otherwise does nothing. -/
def Program.Update (p : Program) (inputState : InputState) : Program × List GLCmd :=
  if inputState.IsKeyPressed InputKey.ESCAPE then p.Exit else (p, [])

/-- `Program::ReadyToExit() const` (lines 88-91): returns `m_exit`. -/
def Program.ReadyToExit (p : Program) : Bool :=
  p.m_exit

/-- `Program::ReadyToExit() const` modelled as a call on the receiver state:
it returns the flag value together with the receiver state after the call
(the method body is `return m_exit;`, which writes nothing). -/
def Program.ReadyToExitCall (p : Program) : Bool × Program :=
  (p.m_exit, p)

/-- The local array `quad` in `Program::Draw` (lines 67-73): four 2-component
vertices, in order top-left (-1,1), bottom-left (-1,-1), top-right (1,1),
bottom-right (1,-1), flattened exactly as in the source. -/
def quad : List Int :=
  [-1, 1, -1, -1, 1, 1, 1, -1]

/-- The graphics calls issued by `Program::Draw` (lines 75-85), in source
order: `glViewport(0,0,512,512)`, `glClearColor(0,0,0,1)`,
`glColorMask(TRUE,TRUE,TRUE,FALSE)`, `glClear(GL_COLOR_BUFFER_BIT)`,
`m_shader.Enable()`, `glVertexAttribPointer(0,2,GL_FLOAT,FALSE,0,quad)`,
`glEnableVertexAttribArray(0)`, `glDrawArrays(GL_TRIANGLE_STRIP,0,4)`,
`m_shader.Disable()`. -/
def drawCommands : List GLCmd :=
  [GLCmd.viewport 0 0 (WINDOW_WIDTH : Int) (WINDOW_HEIGHT : Int),
   GLCmd.clearColor 0 0 0 1,
   GLCmd.colorMask true true true false,
   GLCmd.clear,
   GLCmd.shaderEnable,
   GLCmd.vertexAttribPointer 0 2 GLDataType.GL_FLOAT false 0 quad,
   GLCmd.enableVertexAttribArray 0,
   GLCmd.drawArrays GLPrimitiveMode.GL_TRIANGLE_STRIP 0 4,
   GLCmd.shaderDisable]

/-- `Program::Draw()` (lines 65-86): issues `drawCommands`; writes no
`Program` data member. -/
def Program.Draw (p : Program) : Program × List GLCmd :=
  (p, drawCommands)

/-- `ETB_GL_ERROR_CALLBACK` (Program.cpp lines 13-23): the debug callback
registered by `Load` via `glDebugMessageCallback`. Its body is
`std::cout << message << std::endl;` — it writes the message text as one
line on standard output and ignores every other parameter. The return value
models the list of lines written to standard output by the call. -/
def ETB_GL_ERROR_CALLBACK (source ty id severity length : Nat)
    (message : String) (userParam : Unit) : List String :=
  [message]

/-- A call on a `Program` object, for reasoning about arbitrary operation
sequences. `initialize` and `readyToExit` carry no state change;
`update` carries the input snapshot it is given. -/
inductive Op
  | initConfig (config : ProgramConfiguration)
  | load
  | update (inputState : InputState)
  | draw
  | readyToExit
  | exit
  | unload

/-- The `Program`-state effect of one operation. -/
def step (p : Program) : Op → Program
  | Op.initConfig _ => p
  | Op.load => p.Load
  | Op.update i => (p.Update i).1
  | Op.draw => (p.Draw).1
  | Op.readyToExit => (p.ReadyToExitCall).2
  | Op.exit => (p.Exit).1
  | Op.unload => (p.Unload).1

/-- Run a sequence of operations from a starting state. -/
def run (p : Program) (ops : List Op) : Program :=
  ops.foldl step p

/-- Whether an operation makes the exit flag turn true: an explicit `Exit`
call, or an `Update` whose input snapshot reports escape pressed. -/
def opTriggersExit : Op → Bool
  | Op.update i => i.IsKeyPressed InputKey.ESCAPE
  | Op.exit => true
  | _ => false

/-- Whether a command `a` occurs strictly before a command `b` in a trace
(both must occur). -/
def occursBefore (a b : GLCmd) (t : List GLCmd) : Bool :=
  t.contains a && t.contains b && Nat.blt (t.indexOf a) (t.indexOf b)

/-- A color as four components. Every color value appearing in the source is
an exactly representable float, embedded as `Int`. -/
structure Pixel where
  r : Int
  g : Int
  b : Int
  a : Int
deriving DecidableEq

/-- The fragment of OpenGL driver state relevant to the clear/mask claims,
modelled from the OpenGL specification of `glClearColor`, `glColorMask` and
`glClear`: the clear clears the color buffer to the current clear color, but
writes only the channels whose mask is enabled. The framebuffer is a color
per pixel coordinate. -/
structure GLState where
  clearColorVal : Pixel
  maskR : Bool
  maskG : Bool
  maskB : Bool
  maskA : Bool
  framebuffer : Nat → Nat → Pixel
  boundProgram : Nat
  viewportRect : Int × Int × Int × Int

/-- Effect of one recorded command on the modelled driver state, per the
OpenGL specification. The effect of a draw call depends on the externally
defined shader program, so it is taken as a parameter `render`; commands
addressed at the (unmodelled) vertex-attribute and program-enable state leave
this state fragment unchanged. -/
def applyCmd (render : GLState → GLState) (s : GLState) : GLCmd → GLState
  | GLCmd.viewport x y w h => { s with viewportRect := (x, y, w, h) }
  | GLCmd.clearColor r g b a => { s with clearColorVal := ⟨r, g, b, a⟩ }
  | GLCmd.colorMask mr mg mb ma =>
      { s with maskR := mr, maskG := mg, maskB := mb, maskA := ma }
  | GLCmd.clear =>
      { s with framebuffer := fun x y =>
          { r := if s.maskR then s.clearColorVal.r else (s.framebuffer x y).r
            g := if s.maskG then s.clearColorVal.g else (s.framebuffer x y).g
            b := if s.maskB then s.clearColorVal.b else (s.framebuffer x y).b
            a := if s.maskA then s.clearColorVal.a else (s.framebuffer x y).a } }
  | GLCmd.useProgram h => { s with boundProgram := h }
  | GLCmd.drawArrays _ _ _ => render s
  | _ => s

/-- Run a command trace over the modelled driver state. -/
def runCmds (render : GLState → GLState) (s : GLState) (cs : List GLCmd) : GLState :=
  cs.foldl (applyCmd render) s

/-- The exit flag after one operation: the prior flag, or-ed with whether the
operation triggers an exit. Helper for the monotonicity claim. -/
theorem step_m_exit (p : Program) (op : Op) :
    (step p op).m_exit = (p.m_exit || opTriggersExit op) := by
  cases op with
  | update i =>
      simp only [step, Program.Update, opTriggersExit]
      cases h : i.IsKeyPressed InputKey.ESCAPE <;>
        simp [h, Program.Exit, Program.Unload]
  | exit => simp [step, Program.Exit, Program.Unload, opTriggersExit]
  | initConfig c => simp [step, opTriggersExit]
  | load => simp [step, Program.Load, opTriggersExit]
  | draw => simp [step, Program.Draw, opTriggersExit]
  | readyToExit => simp [step, Program.ReadyToExitCall, opTriggersExit]
  | unload => simp [step, Program.Unload, opTriggersExit]

/-- Claim C1: for every input state and every prior value of the exit flag,
after Update(inputState) the value returned by ReadyToExit() is true exactly
when the escape key is reported pressed in inputState or the flag was already
true before the call; so Update with escape pressed makes ReadyToExit() true,
and Update with escape not pressed leaves a false flag false. -/
theorem C1_update_exit_flag (p : Program) (i : InputState) :
    ((p.Update i).1.ReadyToExit)
      = (i.IsKeyPressed InputKey.ESCAPE || p.ReadyToExit) := by
  simp only [Program.Update, Program.ReadyToExit]
  cases h : i.IsKeyPressed InputKey.ESCAPE <;>
    simp [h, Program.Exit, Program.Unload]

/-- Claim C2: for every configuration record, regardless of its prior
contents, after Initialize(config) the record holds exactly title
"Planetarium Warper", window width 512, window height 512, GL major
version 2, GL minor version 0. The in-place mutation of the C++ reference
parameter is modelled by the returned record. -/
theorem C2_initialize_constants (config : ProgramConfiguration) :
    Program.Initialize config
      = { title := "Planetarium Warper", windowWidth := 512,
          windowHeight := 512, glMajorVersion := 2, glMinorVersion := 0 } := by
  cases config
  rfl

/-- Claim C3, as stated, is false on the code: the claimed order puts the
clear of the color buffer before the disabling of alpha-channel writes, but
in Draw the `glColorMask` call (index 2 of the trace) precedes the `glClear`
call (index 3), so the clear does not precede the mask change. -/
theorem C3_counterexample :
    occursBefore GLCmd.clear (GLCmd.colorMask true true true false)
      ((Program.construct).Draw).2 = false := by
  decide

/-- Claim C3 amended: every call to Draw() issues its graphics operations in
this order — set the viewport to the fixed window size, set the clear color
to opaque black, disable writes to the alpha channel, clear the color
buffer, enable the shader program, bind the quad geometry, issue the
4-vertex triangle-strip draw, disable the program; in particular the
disabling of alpha-channel writes precedes the clear, and enabling the
shader program precedes the binding of the geometry. -/
theorem C3_draw_order (p : Program) :
    (p.Draw).2
      = [GLCmd.viewport 0 0 512 512,
         GLCmd.clearColor 0 0 0 1,
         GLCmd.colorMask true true true false,
         GLCmd.clear,
         GLCmd.shaderEnable,
         GLCmd.vertexAttribPointer 0 2 GLDataType.GL_FLOAT false 0 quad,
         GLCmd.enableVertexAttribArray 0,
         GLCmd.drawArrays GLPrimitiveMode.GL_TRIANGLE_STRIP 0 4,
         GLCmd.shaderDisable]
    ∧ occursBefore (GLCmd.colorMask true true true false) GLCmd.clear
        (p.Draw).2 = true
    ∧ occursBefore GLCmd.shaderEnable
        (GLCmd.vertexAttribPointer 0 2 GLDataType.GL_FLOAT false 0 quad)
        (p.Draw).2 = true := by
  refine ⟨rfl, ?_, ?_⟩
  · show occursBefore (GLCmd.colorMask true true true false) GLCmd.clear
      drawCommands = true
    decide
  · show occursBefore GLCmd.shaderEnable
      (GLCmd.vertexAttribPointer 0 2 GLDataType.GL_FLOAT false 0 quad)
      drawCommands = true
    decide

/-- Claim C4: every call to Draw() issues exactly one color-buffer clear and
exactly one draw submission; that submission is a triangle strip of exactly
4 vertices, and the bound positions are 2-component floats with zero stride
whose data is the four clip-space corners (-1,1), (-1,-1), (1,1), (1,-1). -/
theorem C4_draw_counts (p : Program) :
    ((p.Draw).2.countP fun c => c = GLCmd.clear) = 1
    ∧ ((p.Draw).2.countP fun c =>
        match c with
        | GLCmd.drawArrays _ _ _ => true
        | _ => false) = 1
    ∧ (p.Draw).2.contains
        (GLCmd.drawArrays GLPrimitiveMode.GL_TRIANGLE_STRIP 0 4) = true
    ∧ (p.Draw).2.contains
        (GLCmd.vertexAttribPointer 0 2 GLDataType.GL_FLOAT false 0 quad) = true
    ∧ quad = [-1, 1, -1, -1, 1, 1, 1, -1] := by
  refine ⟨?_, ?_, ?_, ?_, ?_⟩
  · show (drawCommands.countP fun c => c = GLCmd.clear) = 1
    decide
  · show (drawCommands.countP fun c =>
        match c with
        | GLCmd.drawArrays _ _ _ => true
        | _ => false) = 1
    decide
  · show drawCommands.contains
      (GLCmd.drawArrays GLPrimitiveMode.GL_TRIANGLE_STRIP 0 4) = true
    decide
  · show drawCommands.contains
      (GLCmd.vertexAttribPointer 0 2 GLDataType.GL_FLOAT false 0 quad) = true
    decide
  · decide

/-- Claim C5: the exit flag starts false at construction, and over any
sequence of operations the flag after the run equals the flag before or-ed
with whether some operation triggered an exit; hence the only transition is
false to true, it happens at most once, and no operation sequence ever
resets a true flag back to false. -/
theorem C5_exit_flag_monotone :
    Program.construct.m_exit = false
    ∧ ∀ (p : Program) (ops : List Op),
        (run p ops).m_exit = (p.m_exit || ops.any opTriggersExit) := by
  refine ⟨rfl, ?_⟩
  intro p ops
  induction ops generalizing p with
  | nil => simp [run]
  | cons o t ih =>
      show (run (step p o) t).m_exit = _
      rw [ih, step_m_exit, List.any_cons, Bool.or_assoc]

/-- Claim C6: Exit() sets the exit flag to true and then performs Unload()
(whose single effect is binding the null program); a second Exit() call is
well defined, produces the same state and trace as the first, and leaves
ReadyToExit() returning true. -/
theorem C6_exit_idempotent (p : Program) :
    p.Exit = ({ m_exit := true }, [GLCmd.useProgram 0])
    ∧ ((p.Exit).1).Exit = p.Exit
    ∧ (((p.Exit).1).Exit).1.ReadyToExit = true := by
  cases p
  exact ⟨rfl, rfl, rfl⟩

/-- Claim C7: for every driver-reported debug message, whatever its source,
type, id, severity, reported length or user parameter, the debug callback
writes exactly the message text as its one line of standard output, with no
severity tagging or other formatting; it is a total function, so execution
continues. -/
theorem C7_debug_callback_output (source ty id severity length : Nat)
    (userParam : Unit) (message : String) :
    ETB_GL_ERROR_CALLBACK source ty id severity length message userParam
      = [message] := by
  rfl

/-- Claim C8: immediately after a Program is constructed, before any other
operation, ReadyToExit() returns false. -/
theorem C8_ready_to_exit_after_construction :
    Program.construct.ReadyToExit = false := by
  rfl

/-- Claim C9: ReadyToExit() is a pure query — the call returns the current
flag and leaves the Program state unchanged, so two consecutive calls return
the same value and the state after the calls equals the state before. -/
theorem C9_ready_to_exit_pure (p : Program) :
    (p.ReadyToExitCall).2 = p
    ∧ (p.ReadyToExitCall).1 = (((p.ReadyToExitCall).2).ReadyToExitCall).1
    ∧ (p.ReadyToExitCall).1 = p.ReadyToExit := by
  exact ⟨rfl, rfl, rfl⟩

/-- Claim C10: in every Draw() call the color mask disabling alpha writes is
issued before the clear; running the trace through the clear (its first four
commands, the fourth being the clear) over any initial driver state leaves
every framebuffer pixel with red, green and blue cleared to 0 and its alpha
component unchanged, even though the configured clear color has alpha 1. -/
theorem C10_clear_preserves_alpha (p : Program) (render : GLState → GLState)
    (s0 : GLState) (x y : Nat) :
    occursBefore (GLCmd.colorMask true true true false) GLCmd.clear
      (p.Draw).2 = true
    ∧ (p.Draw).2.take 4
        = [GLCmd.viewport 0 0 512 512, GLCmd.clearColor 0 0 0 1,
           GLCmd.colorMask true true true false, GLCmd.clear]
    ∧ (runCmds render s0 ((p.Draw).2.take 4)).clearColorVal.a = 1
    ∧ (runCmds render s0 ((p.Draw).2.take 4)).framebuffer x y
        = { r := 0, g := 0, b := 0, a := (s0.framebuffer x y).a } := by
  refine ⟨?_, rfl, rfl, rfl⟩
  show occursBefore (GLCmd.colorMask true true true false) GLCmd.clear
    drawCommands = true
  decide

end PlanetariumWarper
